import Mathlib

/-!
Verification of the progress-store and analytics logic of the
speech-therapy backend (`src/routes.js`, both variants, plus
`models/User.js` and `middleware/auth.js`).

Shallow embedding conventions:
* JS numbers are modelled as `Rat` (the analytics code only adds,
  divides, and compares them; IEEE NaN is outside the model).
* A JS value that may be absent or of the wrong `typeof` is an
  `Option Rat` (`none` = absent / not a number).
* A `Date` is a `Nat` count of seconds; the date component extracted by
  `toISOString().slice(0, 10)` is the day index `t / 86400`.
* Fallible route handlers return `Except ApiError _`; handlers that may
  mutate the store return the (possibly unchanged) store alongside.
-/

namespace SpeechTherapy

/-- A stored progress record (`progressSchema` in `models/User.js`):
completedExercises, accuracy, comments, lastUpdated, level, score. -/
structure ProgressEntry where
  completedExercises : Rat
  accuracy : Rat
  comments : String
  lastUpdated : Nat
  level : Rat
  score : Rat
deriving DecidableEq

/-- Day index of a timestamp: the date component a JS
`toISOString().slice(0, 10)` extracts. -/
def dateOf (t : Nat) : Nat := t / 86400

/-- The raw `req.body.progressData` object of POST /progress before
validation: the two validated fields may be absent or not numbers. -/
structure RawEntry where
  completedExercises : Option Rat
  accuracy : Option Rat
  comments : String
  lastUpdated : Nat
  level : Rat
  score : Rat
deriving DecidableEq

/-- The validation of POST /progress (routes.js lines 86-95): reject when
`typeof completedExercises` or `typeof accuracy` is not a number, when
`completedExercises < 0`, or when `accuracy` is outside [0, 100]. -/
def validEntry (d : RawEntry) : Bool :=
  match d.completedExercises, d.accuracy with
  | some c, some a => decide (0 ≤ c) && decide (0 ≤ a) && decide (a ≤ 100)
  | _, _ => false

/-- The stored entry built from validated raw data (absent fields take the
schema defaults of `models/User.js`, here 0; validation guarantees the two
`Option` fields are present). -/
def toEntry (d : RawEntry) : ProgressEntry :=
  { completedExercises := d.completedExercises.getD 0
    accuracy := d.accuracy.getD 0
    comments := d.comments
    lastUpdated := d.lastUpdated
    level := d.level
    score := d.score }

/-- A user document (`userSchema`): id, username, password hash, and the
embedded progress list. -/
structure User where
  id : String
  username : String
  password : String
  progress : List ProgressEntry
deriving DecidableEq

/-- The error kinds the progress routes surface (400 validation,
404 user-not-found, 403 unauthorized). -/
inductive ApiError where
  | validationError
  | userNotFound
  | unauthorized
deriving DecidableEq

deriving instance DecidableEq for Except

/-- The derived analytics record returned by the routes. -/
structure AnalyticsSummary where
  totalExercises : Rat
  averageAccuracy : Rat
  bestScore : Rat
  progressCount : Nat
  correctCount : Nat
  incorrectCount : Nat
  streak : Nat
deriving DecidableEq

/-- `entries.filter(p => p.accuracy === 100).length` (routes.js line 113). -/
def correctCount (es : List ProgressEntry) : Nat :=
  (es.filter (fun e => e.accuracy == 100)).length

/-- `entries.filter(p => p.accuracy === 0).length` (routes.js line 114). -/
def incorrectCount (es : List ProgressEntry) : Nat :=
  (es.filter (fun e => e.accuracy == 0)).length

/-- The backward streak loop (routes.js lines 116-120) on the reversed
list: count while accuracy === 100, break at the first other entry. -/
def streakAux : List ProgressEntry → Nat
  | [] => 0
  | e :: rest => if e.accuracy == 100 then streakAux rest + 1 else 0

/-- `streak`: scan entries from the newest backward (routes.js 116-120). -/
def streak (es : List ProgressEntry) : Nat :=
  streakAux es.reverse

/-- `entries.reduce((sum, e) => sum + (e.completedExercises || 0), 0)`
(routes.js line 122). -/
def totalExercises (es : List ProgressEntry) : Rat :=
  es.foldl (fun s e => s + e.completedExercises) 0

/-- `entries.length > 0 ? sum(accuracy)/entries.length : 0`
(routes.js lines 123-125). -/
def averageAccuracy (es : List ProgressEntry) : Rat :=
  if 0 < es.length then
    es.foldl (fun s e => s + e.accuracy) 0 / (es.length : Rat)
  else 0

/-- `entries.reduce((max, e) => (e.score > max ? e.score : max), 0)`
(routes.js lines 126 and 406). -/
def bestScore (es : List ProgressEntry) : Rat :=
  es.foldl (fun m e => if e.score > m then e.score else m) 0

/-- The full analytics recomputation of POST /progress (routes.js
lines 111-148): every statistic over the whole entry list. -/
def summarize (es : List ProgressEntry) : AnalyticsSummary :=
  { totalExercises := totalExercises es
    averageAccuracy := averageAccuracy es
    bestScore := bestScore es
    progressCount := es.length
    correctCount := correctCount es
    incorrectCount := incorrectCount es
    streak := streak es }

/-- `[...user.progress.slice(-9), progressData]` (routes.js lines 104
and 362): keep the last 9 entries and append the new one. -/
def appendTrim (h : List ProgressEntry) (e : ProgressEntry) : List ProgressEntry :=
  h.drop (h.length - 9) ++ [e]

/-- History reached by submitting the given entries in order to an
initially empty history, each submission applying `appendTrim`. -/
def historyAfter (entries : List ProgressEntry) : List ProgressEntry :=
  entries.foldl appendTrim []

/-- `User.findById` over the document store. -/
def findById (store : List User) (uid : String) : Option User :=
  store.find? (fun u => u.id == uid)

/-- `user.save()`: replace the user's document in the store. -/
def saveUser (store : List User) (u : User) : List User :=
  store.map (fun v => if v.id == u.id then u else v)

/-- A POST /progress success body: the updated progress list, and the
`analytics` field when the response carries one (first variant yes,
second variant no). -/
structure SubmitResponse where
  progress : List ProgressEntry
  analytics : Option AnalyticsSummary
deriving DecidableEq

/-- POST /progress, first variant (routes.js lines 81-154): validate,
find the token's user, append-and-trim, save, respond with the updated
list and freshly recomputed analytics. -/
def submitV1 (store : List User) (tokenUserId : String) (raw : Option RawEntry) :
    List User × Except ApiError SubmitResponse :=
  match raw with
  | none => (store, .error .validationError)
  | some d =>
    if validEntry d then
      match findById store tokenUserId with
      | none => (store, .error .userNotFound)
      | some u =>
        let np := appendTrim u.progress (toEntry d)
        (saveUser store { u with progress := np },
          .ok { progress := np, analytics := some (summarize np) })
    else (store, .error .validationError)

/-- POST /progress, second variant (routes.js lines 339-370): identical
validation and append-and-trim, but the response carries only the
updated progress list, with no analytics. -/
def submitV2 (store : List User) (tokenUserId : String) (raw : Option RawEntry) :
    List User × Except ApiError SubmitResponse :=
  match raw with
  | none => (store, .error .validationError)
  | some d =>
    if validEntry d then
      match findById store tokenUserId with
      | none => (store, .error .userNotFound)
      | some u =>
        let np := appendTrim u.progress (toEntry d)
        (saveUser store { u with progress := np },
          .ok { progress := np, analytics := none })
    else (store, .error .validationError)

/-- The today-scoped streak loop (routes.js lines 187-195) on the
reversed list: count while the entry's day equals today and accuracy is
100, break at the first entry failing either. -/
def todayStreakAux (today : Nat) : List ProgressEntry → Nat
  | [] => 0
  | e :: rest =>
    if dateOf e.lastUpdated == today && e.accuracy == 100 then
      todayStreakAux today rest + 1
    else 0

/-- GET /progress/analytics, first variant, steps 3-8 (routes.js
lines 175-223): counts over today's entries only, totals and average and
best over all entries, streak scanned backward over all entries breaking
on the first non-today or non-perfect entry. -/
def analyticsToday (es : List ProgressEntry) (asOf : Nat) : AnalyticsSummary :=
  let today := dateOf asOf
  let todays := es.filter (fun e => dateOf e.lastUpdated == today)
  { totalExercises := totalExercises es
    averageAccuracy := averageAccuracy es
    bestScore := bestScore es
    progressCount := todays.length
    correctCount := correctCount todays
    incorrectCount := incorrectCount todays
    streak := todayStreakAux today es.reverse }

/-- GET /progress/analytics/:userId, first variant (routes.js
lines 161-228): the auth comparison against the token's userId comes
first, then the user lookup, then the today-scoped analytics. -/
def getAnalytics (store : List User) (tokenUserId requestedUserId : String)
    (asOf : Nat) : Except ApiError AnalyticsSummary :=
  if tokenUserId ≠ requestedUserId then .error .unauthorized
  else
    match findById store requestedUserId with
    | none => .error .userNotFound
    | some u => .ok (analyticsToday u.progress asOf)

/-- Spec-side reading of the streak: the number of consecutive entries,
scanning from the newest backward, whose accuracy is exactly 100. -/
def streakSpec (es : List ProgressEntry) : Nat :=
  (es.reverse.takeWhile (fun e => e.accuracy == 100)).length

/-- Spec-side reading of the input constraints on a submitted entry:
completedExercises is a non-negative number and accuracy is a number in
[0, 100] (the amended form of the constraint; see `C4`). -/
def wellFormed (d : RawEntry) : Prop :=
  (∃ c, d.completedExercises = some c ∧ 0 ≤ c) ∧
  (∃ a, d.accuracy = some a ∧ 0 ≤ a ∧ a ≤ 100)

instance (d : RawEntry) : Decidable (wellFormed d) := by
  unfold wellFormed
  exact inferInstance

/-- A concrete entry with the given accuracy, other fields defaulted. -/
def mkE (acc : Rat) : ProgressEntry :=
  { completedExercises := 0, accuracy := acc, comments := ""
    lastUpdated := 0, level := 1, score := 0 }

/-- A concrete user with an empty history, for witnesses. -/
def user1 : User :=
  { id := "u1", username := "alice", password := "h", progress := [] }

/-- A raw submission whose completedExercises is the non-integer 1/2 and
whose accuracy is 50: both fields are numbers in range. -/
def rawHalf : RawEntry :=
  { completedExercises := some (mkRat 1 2), accuracy := some 50, comments := ""
    lastUpdated := 0, level := 1, score := 0 }

/-- A raw submission satisfying every input constraint. -/
def rawGood : RawEntry :=
  { completedExercises := some 3, accuracy := some 100, comments := ""
    lastUpdated := 0, level := 1, score := 7 }

/-- A concrete entry whose score is negative. -/
def negEntry : ProgressEntry :=
  { completedExercises := 0, accuracy := 50, comments := ""
    lastUpdated := 0, level := 1, score := -1 }

/-! ## Helper lemmas -/

theorem historyAfter_append (l : List ProgressEntry) (e : ProgressEntry) :
    historyAfter (l ++ [e]) = appendTrim (historyAfter l) e := by
  simp [historyAfter, List.foldl_append]

theorem appendTrim_drop (l : List ProgressEntry) (e : ProgressEntry) :
    appendTrim (l.drop (l.length - 10)) e = (l ++ [e]).drop (l.length + 1 - 10) := by
  unfold appendTrim
  rw [List.length_drop, List.drop_drop, List.drop_append_eq_append_drop]
  have h1 : l.length - 10 + (l.length - (l.length - 10) - 9) = l.length + 1 - 10 := by
    omega
  have h2 : l.length + 1 - 10 - l.length = 0 := by omega
  rw [h1, h2]
  rfl

theorem historyAfter_eq_drop (l : List ProgressEntry) :
    historyAfter l = l.drop (l.length - 10) := by
  induction l using List.reverseRecOn with
  | nil => rfl
  | append_singleton l e ih =>
    rw [historyAfter_append, ih, appendTrim_drop]
    simp

theorem streakAux_takeWhile (l : List ProgressEntry) :
    streakAux l = (l.takeWhile (fun e => e.accuracy == 100)).length := by
  induction l with
  | nil => rfl
  | cons e rest ih =>
    cases hb : (e.accuracy == 100) <;>
      simp [streakAux, List.takeWhile_cons, hb, ih]

theorem validEntry_iff (d : RawEntry) : validEntry d = true ↔ wellFormed d := by
  cases hc : d.completedExercises <;> cases ha : d.accuracy <;>
    simp [validEntry, wellFormed, hc, ha, and_assoc]

theorem foldl_max_neg (es : List ProgressEntry) (h : ∀ e ∈ es, e.score < 0) :
    es.foldl (fun m e => max m e.score) 0 = 0 := by
  induction es with
  | nil => rfl
  | cons e rest ih =>
    rw [List.foldl_cons, max_eq_left (le_of_lt (h e (List.mem_cons_self e rest)))]
    exact ih fun x hx => h x (List.mem_cons_of_mem e hx)

theorem bestScore_foldl_max (es : List ProgressEntry) :
    bestScore es = es.foldl (fun m e => max m e.score) 0 := by
  unfold bestScore
  suffices h : ∀ a : Rat,
      es.foldl (fun m e => if e.score > m then e.score else m) a
        = es.foldl (fun m e => max m e.score) a from h 0
  induction es with
  | nil => intro a; rfl
  | cons e rest ih =>
    intro a
    have hacc : (if e.score > a then e.score else a) = max a e.score := by
      rcases le_or_lt e.score a with h | h
      · rw [if_neg (not_lt.mpr h), max_eq_left h]
      · rw [if_pos h, max_eq_right h.le]
    rw [List.foldl_cons, List.foldl_cons, hacc, ih]

/-! ## Claims -/

/-- C1: submitting N valid entries to an initially empty history leaves
min(N, 10) entries, exactly the most recent min(N, 10) submitted ones in
their original order (the length-min(N,10) suffix of the submission
sequence), and the length never exceeds 10 after any prefix of the
submissions. -/
theorem C1_history_bound (entries : List ProgressEntry) :
    (historyAfter entries).length = min entries.length 10 ∧
    historyAfter entries = entries.drop (entries.length - 10) ∧
    ∀ k : Nat, (historyAfter (entries.take k)).length ≤ 10 := by
  refine ⟨?_, historyAfter_eq_drop entries, ?_⟩
  · rw [historyAfter_eq_drop, List.length_drop]
    omega
  · intro k
    rw [historyAfter_eq_drop, List.length_drop, List.length_take]
    omega

/-- C2: under ALL scope the streak is the count of consecutive entries,
scanning from the newest backward, whose accuracy is exactly 100,
stopping at the first other entry; submitting accuracies
[100, 100, 90, 100] in order yields streak 1, correctCount 3,
incorrectCount 0, progressCount 4. -/
theorem C2_streak_all_scope (es : List ProgressEntry) :
    streak es = streakSpec es ∧
    (summarize (historyAfter [mkE 100, mkE 100, mkE 90, mkE 100])).streak = 1 ∧
    (summarize (historyAfter [mkE 100, mkE 100, mkE 90, mkE 100])).correctCount = 3 ∧
    (summarize (historyAfter [mkE 100, mkE 100, mkE 90, mkE 100])).incorrectCount = 0 ∧
    (summarize (historyAfter [mkE 100, mkE 100, mkE 90, mkE 100])).progressCount = 4 :=
  ⟨streakAux_takeWhile es.reverse, by decide, by decide, by decide, by decide⟩

/-- C3: the today-scoped analytics counts (correctCount, incorrectCount,
progressCount) range over only the entries dated on the reference day,
totalExercises and averageAccuracy range over all entries, and the
backward streak scan stops at the first entry dated off the reference
day even when that entry's accuracy is 100. -/
theorem C3_today_scope (es : List ProgressEntry) (e : ProgressEntry) (asOf : Nat)
    (h : dateOf e.lastUpdated ≠ dateOf asOf) :
    (analyticsToday es asOf).correctCount =
      correctCount (es.filter (fun x => dateOf x.lastUpdated == dateOf asOf)) ∧
    (analyticsToday es asOf).incorrectCount =
      incorrectCount (es.filter (fun x => dateOf x.lastUpdated == dateOf asOf)) ∧
    (analyticsToday es asOf).progressCount =
      (es.filter (fun x => dateOf x.lastUpdated == dateOf asOf)).length ∧
    (analyticsToday es asOf).totalExercises = totalExercises es ∧
    (analyticsToday es asOf).averageAccuracy = averageAccuracy es ∧
    (analyticsToday (es ++ [e]) asOf).streak = 0 := by
  have hb : (dateOf e.lastUpdated == dateOf asOf) = false := by
    simpa using h
  refine ⟨rfl, rfl, rfl, rfl, rfl, ?_⟩
  simp [analyticsToday, List.reverse_append, todayStreakAux, hb]

/-- C3 witness: an entry dated on day 0, accuracy 100, scanned against
reference day 1, yields streak 0. -/
theorem C3_today_scope_witness :
    (analyticsToday ([] ++ [mkE 100]) 86400).streak = 0 :=
  (C3_today_scope [] (mkE 100) 86400 (by decide)).2.2.2.2.2

/-- C4 counterexample: the submission with completedExercises = 1/2 — a
non-negative number that is not an integer — is accepted by the
validation of both variants, though the claim requires a
ValidationError. -/
theorem C4_counterexample :
    (mkRat 1 2).den ≠ 1 ∧ (0 : Rat) ≤ mkRat 1 2 ∧
    (submitV1 [user1] "u1" (some rawHalf)).2 ≠ Except.error ApiError.validationError ∧
    (submitV2 [user1] "u1" (some rawHalf)).2 ≠ Except.error ApiError.validationError := by
  refine ⟨by decide, by decide, by decide, by decide⟩

/-- C4 (amended): submit fails with ValidationError, leaving the store
unchanged, whenever completedExercises is absent or not a non-negative
number, or accuracy is absent or not a number in [0, 100]; integrality
of completedExercises is not checked, and submissions whose two fields
are numbers with completedExercises ≥ 0 and accuracy in [0, 100] are
never rejected by validation. -/
theorem C4_validation (store : List User) (tok : String) (d : RawEntry) :
    (¬ wellFormed d →
      submitV1 store tok (some d) = (store, Except.error ApiError.validationError) ∧
      submitV2 store tok (some d) = (store, Except.error ApiError.validationError)) ∧
    (wellFormed d →
      (submitV1 store tok (some d)).2 ≠ Except.error ApiError.validationError ∧
      (submitV2 store tok (some d)).2 ≠ Except.error ApiError.validationError) := by
  constructor
  · intro h
    have hv : validEntry d = false := by
      cases h' : validEntry d
      · rfl
      · exact absurd ((validEntry_iff d).mp h') h
    constructor <;> simp [submitV1, submitV2, hv]
  · intro h
    have hv : validEntry d = true := (validEntry_iff d).mpr h
    constructor <;>
      · simp only [submitV1, submitV2, hv, if_true]
        cases hf : findById store tok <;> simp

/-- C4 witness: a malformed submission (accuracy 101) is rejected with
the store unchanged, and a well-formed one is not rejected. -/
theorem C4_validation_witness :
    submitV1 [user1] "u1"
        (some { rawGood with accuracy := some 101 }) =
      ([user1], Except.error ApiError.validationError) ∧
    (submitV1 [user1] "u1" (some rawGood)).2 ≠ Except.error ApiError.validationError :=
  ⟨((C4_validation [user1] "u1" { rawGood with accuracy := some 101 }).1
      (by decide)).1,
   ((C4_validation [user1] "u1" rawGood).2 (by decide)).1⟩

/-- C5 counterexample: a successful submission through the second
variant returns the updated history with no analytics at all, though the
claim requires an AnalyticsSummary alongside. -/
theorem C5_counterexample :
    (submitV2 [user1] "u1" (some rawGood)).2 =
      Except.ok { progress := [toEntry rawGood], analytics := none } := by
  decide

/-- C5 (amended): every successful submission through the first variant
returns both the post-append-and-trim history and an AnalyticsSummary
recomputed over it; the second variant returns only the updated history,
with no analytics. -/
theorem C5_submit_response (store : List User) (tok : String) (d : RawEntry)
    (u : User) (hv : validEntry d = true) (hf : findById store tok = some u) :
    (submitV1 store tok (some d)).2 =
      Except.ok { progress := appendTrim u.progress (toEntry d)
                  analytics := some (summarize (appendTrim u.progress (toEntry d))) } ∧
    (submitV2 store tok (some d)).2 =
      Except.ok { progress := appendTrim u.progress (toEntry d)
                  analytics := none } := by
  constructor <;> simp [submitV1, submitV2, hv, hf]

/-- C5 witness: the concrete well-formed submission to user u1. -/
theorem C5_submit_response_witness :
    (submitV1 [user1] "u1" (some rawGood)).2 =
      Except.ok { progress := appendTrim user1.progress (toEntry rawGood)
                  analytics := some (summarize (appendTrim user1.progress (toEntry rawGood))) } ∧
    (submitV2 [user1] "u1" (some rawGood)).2 =
      Except.ok { progress := appendTrim user1.progress (toEntry rawGood)
                  analytics := none } :=
  C5_submit_response [user1] "u1" rawGood user1 (by decide) (by decide)

/-- C6: whenever the token's userId differs from the requested userId,
GetAnalytics fails with Unauthorized, whose payload carries no history
or analytics data. -/
theorem C6_unauthorized (store : List User) (tok req : String) (asOf : Nat)
    (h : tok ≠ req) :
    getAnalytics store tok req asOf = Except.error ApiError.unauthorized := by
  simp [getAnalytics, h]

/-- C6 witness: a token for u2 requesting u1's analytics. -/
theorem C6_unauthorized_witness :
    getAnalytics [user1] "u2" "u1" 0 = Except.error ApiError.unauthorized :=
  C6_unauthorized [user1] "u2" "u1" 0 (by decide)

/-- C7: bestScore is the fold of the entry scores by maximum with
initial accumulator 0, so a non-empty sequence whose every score is
negative reports bestScore 0. -/
theorem C7_bestScore (es fs : List ProgressEntry)
    (_hne : fs ≠ []) (hneg : ∀ e ∈ fs, e.score < 0) :
    bestScore es = es.foldl (fun m e => max m e.score) 0 ∧ bestScore fs = 0 :=
  ⟨bestScore_foldl_max es, (bestScore_foldl_max fs).trans (foldl_max_neg fs hneg)⟩

/-- C7 witness: the singleton history holding one entry of score -1. -/
theorem C7_bestScore_witness :
    bestScore [negEntry] = [negEntry].foldl (fun m e => max m e.score) 0 ∧
    bestScore [negEntry] = 0 :=
  C7_bestScore [negEntry] [negEntry] (by decide)
    (fun e he => by
      rw [List.mem_singleton] at he
      subst he
      decide)

/-- C8: appending one entry whose accuracy is not 100 — whether by plain
append or by the store's append-and-trim — yields a history whose streak
is 0, whatever the previous streak was. -/
theorem C8_streak_reset (es : List ProgressEntry) (e : ProgressEntry)
    (h : e.accuracy ≠ 100) :
    streak (es ++ [e]) = 0 ∧ streak (appendTrim es e) = 0 := by
  have hb : (e.accuracy == 100) = false := by simpa using h
  constructor
  · simp [streak, List.reverse_append, streakAux, hb]
  · simp [appendTrim, streak, List.reverse_append, streakAux, hb]

/-- C8 witness: appending an accuracy-90 entry to a streak-1 history. -/
theorem C8_streak_reset_witness :
    streak ([mkE 100] ++ [mkE 90]) = 0 ∧ streak (appendTrim [mkE 100] (mkE 90)) = 0 :=
  C8_streak_reset [mkE 100] (mkE 90) (by decide)

/-- C9: summarizing the empty entry sequence yields the all-zero
summary. -/
theorem C9_empty_summary :
    summarize [] =
      { totalExercises := 0, averageAccuracy := 0, bestScore := 0
        progressCount := 0, correctCount := 0, incorrectCount := 0
        streak := 0 } := rfl

/-- C10: the authorization comparison precedes the user lookup: with a
mismatched token the result is Unauthorized even when the requested
userId resolves to no user, never UserNotFound. -/
theorem C10_auth_before_lookup (store : List User) (tok req : String) (asOf : Nat)
    (h : tok ≠ req) (_hnf : findById store req = none) :
    getAnalytics store tok req asOf = Except.error ApiError.unauthorized ∧
    getAnalytics store tok req asOf ≠ Except.error ApiError.userNotFound := by
  refine ⟨by simp [getAnalytics, h], by simp [getAnalytics, h]⟩

/-- C10 witness: an empty store, where the requested user certainly does
not exist, still answers Unauthorized. -/
theorem C10_auth_before_lookup_witness :
    getAnalytics [] "a" "b" 0 = Except.error ApiError.unauthorized ∧
    getAnalytics [] "a" "b" 0 ≠ Except.error ApiError.userNotFound :=
  C10_auth_before_lookup [] "a" "b" 0 (by decide) (by decide)

end SpeechTherapy
